import Mathlib

/-!
Shallow embedding of the reactor core of the pro_muduo repository:
EventLoop.cc (event loop, cross-thread task queue, wake-up eventfd),
Thread.cc (thread wrapper with its semaphore handshake) and
TcpConnection.h (the connection state predicate).

Functions whose behaviour depends on the operating system (the number of
bytes a write or read on the eventfd transfers, the channels the poller
reports, the thread schedule) take that outcome as an explicit argument.
Tasks, loops, channels and threads are identified by natural numbers.
-/

/-- Modelled from the spec: Logger.h is not among the sources.  The spec's
error-handling section fixes its semantics: `LOG_FATAL` aborts the process
with a diagnostic, `LOG_ERROR` reports and continues, other levels merely
report. -/
inductive LogAction
  | noLog
  | logError
  | logFatal
deriving DecidableEq

/-- Whether a logging action terminates the process: only `LOG_FATAL` does. -/
def LogAction.aborts : LogAction → Bool
  | .logFatal => true
  | _ => false

/-- Outcome of running the EventLoop constructor body against the
thread-local sentinel `t_loopInThisThread` (an `Option Nat`, `none` being
the null pointer): the logging action taken and the sentinel afterwards. -/
structure ConstructResult where
  log : LogAction
  sentinel : Option Nat
deriving DecidableEq

/-- EventLoop.cc, `EventLoop::EventLoop`: if `t_loopInThisThread` is non-null
the constructor calls `LOG_FATAL` (naming the existing loop) and leaves the
sentinel unchanged; otherwise it stores the new loop into the sentinel. -/
def EventLoop.construct (t_loopInThisThread : Option Nat) (newLoop : Nat) : ConstructResult :=
  match t_loopInThisThread with
  | some other => { log := .logFatal, sentinel := some other }
  | none => { log := .noLog, sentinel := some newLoop }

/-- EventLoop.cc, `EventLoop::~EventLoop`: the destructor resets
`t_loopInThisThread` to the null pointer. -/
def EventLoop.destruct (_t_loopInThisThread : Option Nat) : Option Nat :=
  none

/-- The EventLoop fields the embedded operations read or write:
`looping_`, `quit_`, `callingPendingFunctors_`, `threadId_` and the
mutex-protected `pendingFunctors_` queue. -/
structure EventLoopState where
  looping : Bool
  quit : Bool
  callingPendingFunctors : Bool
  threadId : Nat
  pendingFunctors : List Nat
deriving DecidableEq

/-- Modelled from the spec: EventLoop.h is not among the sources; per the
concurrency model, `isInLoopThread` compares the loop's owning thread id
(`threadId_`) with the calling thread's id. -/
def isInLoopThread (st : EventLoopState) (callerTid : Nat) : Bool :=
  st.threadId == callerTid

/-- Observable steps taken by `queueInLoop` and `runInLoop`:
taking and releasing the task-queue mutex, appending a task to
`pendingFunctors_`, calling `wakeup()`, and executing a task inline. -/
inductive Effect
  | lockMutex
  | appendTask (cb : Nat)
  | unlockMutex
  | wakeupCall
  | execTask (cb : Nat)
deriving DecidableEq

/-- EventLoop.cc, `EventLoop::queueInLoop`: inside a scope holding `mutex_`,
`cb` is appended to `pendingFunctors_`; after releasing the lock, `wakeup()`
is called exactly when `!isInLoopThread() || callingPendingFunctors_`.
Returns the effect trace paired with the updated state. -/
def EventLoop.queueInLoop (st : EventLoopState) (callerTid : Nat) (cb : Nat) :
    List Effect × EventLoopState :=
  ( [Effect.lockMutex, Effect.appendTask cb, Effect.unlockMutex]
      ++ (if !(isInLoopThread st callerTid) || st.callingPendingFunctors
            then [Effect.wakeupCall] else []),
    { st with pendingFunctors := st.pendingFunctors ++ [cb] } )

/-- EventLoop.cc, `EventLoop::runInLoop`: on the owning thread the callback
runs inline (`cb()`); on any other thread it is handed to `queueInLoop`. -/
def EventLoop.runInLoop (st : EventLoopState) (callerTid : Nat) (cb : Nat) :
    List Effect × EventLoopState :=
  if isInLoopThread st callerTid then ([Effect.execTask cb], st)
  else EventLoop.queueInLoop st callerTid cb

/-- EventLoop.cc, `EventLoop::doPendingFunctors`: sets
`callingPendingFunctors_`, swaps the queue into a local vector under the
lock, runs every functor in order without the lock, then clears the flag.
Returns the functors that ran paired with the state after the call. -/
def EventLoop.doPendingFunctors (st : EventLoopState) : List Nat × EventLoopState :=
  (st.pendingFunctors,
   { st with pendingFunctors := [], callingPendingFunctors := false })

/-- Outcome of `EventLoop::wakeup`: the 64-bit value and byte count it asks
`write` to transfer, the logging action taken, and whether the function
returns normally. -/
structure WakeupResult where
  valueWritten : Nat
  bytesRequested : Nat
  log : LogAction
  returnsNormally : Bool
deriving DecidableEq

/-- EventLoop.cc, `EventLoop::wakeup`: writes the 8-byte `uint64_t` value 1
to `wakeupFd_`.  `bytesWritten` is the count the `write` system call
reported; any count other than 8 is reported with `LOG_ERROR` and the
function returns normally either way. -/
def EventLoop.wakeup (bytesWritten : Int) : WakeupResult :=
  { valueWritten := 1
  , bytesRequested := 8
  , log := if bytesWritten = 8 then .noLog else .logError
  , returnsNormally := true }

/-- Outcome of `EventLoop::handleRead`: the byte count it asks `read` to
transfer, the logging action taken, and whether the handler returns
normally. -/
structure HandleReadResult where
  bytesRequested : Nat
  log : LogAction
  returnsNormally : Bool
deriving DecidableEq

/-- EventLoop.cc, `EventLoop::handleRead`: reads an 8-byte `uint64_t` from
`wakeupFd_`.  `bytesRead` is the count the `read` system call reported; any
count other than 8 is reported with `LOG_ERROR` and the handler returns
normally either way. -/
def EventLoop.handleRead (bytesRead : Int) : HandleReadResult :=
  { bytesRequested := 8
  , log := if bytesRead = 8 then .noLog else .logError
  , returnsNormally := true }

/-- EventLoop.cc: value of the default poll-timeout constant
`const int kPollTimeMs = 10000`. -/
def kPollTimeMs : Int := 10000

/-- EventLoop.cc defines `const int kPollTimeMs = 10000` twice: once at the
top of the file next to the sentinel and once again a few lines below under
a duplicate comment.  This list records the value of each textual
definition, in file order. -/
def kPollTimeMsDefinitions : List Int := [10000, 10000]

/-- Environment input for one iteration of `EventLoop::loop`: the channels
the poller reports active (in the order it returns them) and whether
`quit_` becomes set during the iteration's body (by a dispatched handler, a
pending functor, or a concurrent `quit()`). -/
structure IterInput where
  active : List Nat
  quitDuring : Bool
deriving DecidableEq

/-- Observable steps of `EventLoop::loop`: one poller wait (with its
timeout argument), one `handleEvent` dispatch on a channel, or one
`doPendingFunctors` phase. -/
inductive LoopEvent
  | poll (timeoutMs : Int)
  | handleEvent (ch : Nat)
  | pendingPhase
deriving DecidableEq

/-- The channel a loop event dispatches, if it is a dispatch. -/
def LoopEvent.channelOf : LoopEvent → Option Nat
  | .handleEvent ch => some ch
  | _ => none

/-- EventLoop.cc, body of the `while` in `EventLoop::loop`: clear the
active list, poll with `kPollTimeMs`, call `handleEvent` on each active
channel in the order the poller returned them, then run
`doPendingFunctors`. -/
def iterTrace (it : IterInput) : List LoopEvent :=
  LoopEvent.poll kPollTimeMs
    :: (it.active.map LoopEvent.handleEvent ++ [LoopEvent.pendingPhase])

/-- The event trace of `while (!quit_) { ... }`: at each loop head `quit_`
is checked first; if set, no further iteration runs, otherwise the
iteration's body runs and `quit_` may become set during it.  The script
lists the environment's input for the iterations observed. -/
def loopIters (quit : Bool) : List IterInput → List LoopEvent
  | [] => []
  | it :: rest =>
      if quit then [] else iterTrace it ++ loopIters it.quitDuring rest

/-- Whether `while (!quit_)` terminates within the script: true when some
loop-head check observes `quit_` set before the script runs out. -/
def loopExits (quit : Bool) : List IterInput → Bool
  | [] => quit
  | it :: rest => if quit then true else loopExits it.quitDuring rest

/-- What `EventLoop::loop` returns: the trace of its iterations and the
value of `looping_` after it returns. -/
structure LoopResult where
  trace : List LoopEvent
  looping : Bool
deriving DecidableEq

/-- EventLoop.cc, `EventLoop::loop`: sets `looping_ = true` and `quit_ =
false`, runs the `while (!quit_)` loop, then clears `looping_`.  Because
`quit_` is unconditionally reset, the loop body starts with `quit_` false
whatever the state held before the call.  Returns `none` when the script
ends with the loop still running (no head check observed `quit_`). -/
def EventLoop.loop (_st : EventLoopState) (script : List IterInput) : Option LoopResult :=
  if loopExits false script
    then some { trace := loopIters false script, looping := false }
    else none

/-- A state in which a loop has stopped: `loop()` returned after `quit()`
set `quit_`, and the exit path cleared `looping_`. -/
def stoppedLoopState : EventLoopState :=
  { looping := false
  , quit := true
  , callingPendingFunctors := false
  , threadId := 1
  , pendingFunctors := [] }

/-- Concrete restart script: one iteration with no active channels during
which `quit()` is called again. -/
def restartScript : List IterInput :=
  [{ active := [], quitDuring := true }]

/-- The result `EventLoop::loop` produces on `restartScript`. -/
def restartResult : LoopResult :=
  { trace := [LoopEvent.poll kPollTimeMs, LoopEvent.pendingPhase]
  , looping := false }

/-- Sample loop state for concrete evaluations. -/
def sampleLoopState : EventLoopState :=
  { looping := false
  , quit := false
  , callingPendingFunctors := false
  , threadId := 1
  , pendingFunctors := [] }

/-- Sample script: one iteration with channels 2 and 3 active, during which
quit is requested. -/
def sampleScript : List IterInput :=
  [{ active := [2, 3], quitDuring := true }]

/-- The result `EventLoop::loop` produces on `sampleScript`. -/
def sampleLoopResult : LoopResult :=
  { trace := [LoopEvent.poll kPollTimeMs, LoopEvent.handleEvent 2,
              LoopEvent.handleEvent 3, LoopEvent.pendingPhase]
  , looping := false }

/-- Events of `Thread::start` (Thread.cc): the spawned worker runs
`tid_ = CurrentThread::tid()`, then `sem_post(&sem)`, then `func_()`; the
calling thread's `sem_wait(&sem)` returns. -/
inductive ThreadEvent
  | assignTid
  | semPost
  | runFunc
  | semWaitReturn
deriving DecidableEq

/-- Event `a` occurs strictly before event `b` in trace `t`. -/
abbrev precedes (t : List ThreadEvent) (a b : ThreadEvent) : Prop :=
  t.indexOf a < t.indexOf b

/-- The four events of one `Thread::start` call, each of which occurs
exactly once. -/
def startEvents : List ThreadEvent :=
  [ThreadEvent.assignTid, ThreadEvent.semPost,
   ThreadEvent.runFunc, ThreadEvent.semWaitReturn]

/-- Thread.cc, `Thread::start`: the set of schedules the code admits.  A
trace is a valid interleaving of the worker with the caller when every
event occurs exactly once, the worker's three statements keep their program
order (`tid_` assignment, then `sem_post`, then `func_()`), and —
`sem_init(&sem, 0, 0)` starting the count at zero — `sem_wait` returns only
after `sem_post`. -/
def Thread.validStartTrace (t : List ThreadEvent) : Prop :=
  t.Perm startEvents
  ∧ precedes t ThreadEvent.assignTid ThreadEvent.semPost
  ∧ precedes t ThreadEvent.semPost ThreadEvent.runFunc
  ∧ precedes t ThreadEvent.semPost ThreadEvent.semWaitReturn

/-- A concrete valid schedule of `Thread::start`. -/
def sampleStartTrace : List ThreadEvent :=
  [ThreadEvent.assignTid, ThreadEvent.semPost,
   ThreadEvent.runFunc, ThreadEvent.semWaitReturn]

/-- TcpConnection.h: `enum StateE {kDisconnected, kConnecting, kConnected,
kDisconnecting}`. -/
inductive StateE
  | kDisconnected
  | kConnecting
  | kConnected
  | kDisconnecting
deriving DecidableEq

/-- TcpConnection.h: `bool connected() const { return state_ == kConnected; }`. -/
def TcpConnection.connected (state_ : StateE) : Bool :=
  state_ == StateE.kConnected

/-- C1: at most one EventLoop per thread.  The constructor is fatal
(aborts) when the thread-local sentinel is already set and leaves it
unchanged; on an empty sentinel it records the new loop without logging
fatally; the destructor clears the sentinel, so constructing after a
destruction succeeds again. -/
theorem eventLoop_per_thread (s : Option Nat) (l other : Nat) :
    (EventLoop.construct (some other) l).log = LogAction.logFatal
    ∧ ((EventLoop.construct (some other) l).log).aborts = true
    ∧ (EventLoop.construct (some other) l).sentinel = some other
    ∧ (EventLoop.construct none l).log = LogAction.noLog
    ∧ ((EventLoop.construct none l).log).aborts = false
    ∧ (EventLoop.construct none l).sentinel = some l
    ∧ EventLoop.destruct s = none
    ∧ (EventLoop.construct (EventLoop.destruct (some other)) l).log = LogAction.noLog
    ∧ (EventLoop.construct (EventLoop.destruct (some other)) l).sentinel = some l := by
  refine ⟨rfl, rfl, rfl, rfl, rfl, rfl, rfl, rfl, rfl⟩

/-- C2: `queueInLoop` appends the task while the task-queue mutex is held
(the append is the trace step between lock and unlock), stores it at the
back of `pendingFunctors_`, and calls `wakeup()` exactly when the caller is
not the owning thread or `callingPendingFunctors_` is set; in particular,
from the loop thread during the deferred-task phase it wakes, and from the
loop thread outside that phase it does not. -/
theorem queueInLoop_spec (st : EventLoopState) (callerTid cb : Nat) :
    (EventLoop.queueInLoop st callerTid cb).2.pendingFunctors
        = st.pendingFunctors ++ [cb]
    ∧ ((EventLoop.queueInLoop st callerTid cb).1)[0]? = some Effect.lockMutex
    ∧ ((EventLoop.queueInLoop st callerTid cb).1)[1]? = some (Effect.appendTask cb)
    ∧ ((EventLoop.queueInLoop st callerTid cb).1)[2]? = some Effect.unlockMutex
    ∧ (Effect.wakeupCall ∈ (EventLoop.queueInLoop st callerTid cb).1 ↔
        (isInLoopThread st callerTid = false ∨ st.callingPendingFunctors = true))
    ∧ (isInLoopThread st callerTid = true → st.callingPendingFunctors = true →
        Effect.wakeupCall ∈ (EventLoop.queueInLoop st callerTid cb).1)
    ∧ (isInLoopThread st callerTid = true → st.callingPendingFunctors = false →
        Effect.wakeupCall ∉ (EventLoop.queueInLoop st callerTid cb).1) := by
  unfold EventLoop.queueInLoop
  by_cases hin : isInLoopThread st callerTid
  · by_cases hcall : st.callingPendingFunctors
    · simp [hin, hcall]
    · simp [hin, hcall]
  · by_cases hcall : st.callingPendingFunctors
    · simp [hin, hcall]
    · simp [hin, hcall]

/-- C2 witness: from the loop thread with `callingPendingFunctors_` set,
the enqueued trace contains a `wakeup()` call and the task lands at the
back of the queue. -/
theorem queueInLoop_spec_witness :
    Effect.wakeupCall ∈
      (EventLoop.queueInLoop
        { looping := true, quit := false, callingPendingFunctors := true
        , threadId := 1, pendingFunctors := [7] } 1 9).1
    ∧ (EventLoop.queueInLoop
        { looping := true, quit := false, callingPendingFunctors := true
        , threadId := 1, pendingFunctors := [7] } 1 9).2.pendingFunctors = [7, 9] := by
  have h := queueInLoop_spec
    { looping := true, quit := false, callingPendingFunctors := true
    , threadId := 1, pendingFunctors := [7] } 1 9
  exact ⟨h.2.2.2.2.2.1 rfl rfl, h.1⟩

/-- C3: `runInLoop` from the owning thread executes the callback inline
(its whole trace is that execution, so the callback has run before the call
returns); from any other thread the trace is exactly the `queueInLoop`
trace, which contains no inline execution of the callback but does append
it to the pending queue. -/
theorem runInLoop_spec (st : EventLoopState) (callerTid cb : Nat) :
    (isInLoopThread st callerTid = true →
      (EventLoop.runInLoop st callerTid cb).1 = [Effect.execTask cb])
    ∧ (isInLoopThread st callerTid = false →
      (EventLoop.runInLoop st callerTid cb).1
          = (EventLoop.queueInLoop st callerTid cb).1
      ∧ Effect.execTask cb ∉ (EventLoop.runInLoop st callerTid cb).1
      ∧ Effect.appendTask cb ∈ (EventLoop.runInLoop st callerTid cb).1) := by
  constructor
  · intro hin
    simp [EventLoop.runInLoop, hin]
  · intro hout
    have hout' : ¬ isInLoopThread st callerTid = true := by simp [hout]
    refine ⟨by simp [EventLoop.runInLoop, hout'], ?_, ?_⟩
    · simp [EventLoop.runInLoop, hout', EventLoop.queueInLoop]
    · simp [EventLoop.runInLoop, hout', EventLoop.queueInLoop]

/-- C3 witness: on the owning thread the callback runs inline; on a foreign
thread it does not and is appended instead. -/
theorem runInLoop_spec_witness :
    (EventLoop.runInLoop sampleLoopState 1 5).1 = [Effect.execTask 5]
    ∧ Effect.execTask 5 ∉ (EventLoop.runInLoop sampleLoopState 2 5).1
    ∧ Effect.appendTask 5 ∈ (EventLoop.runInLoop sampleLoopState 2 5).1 := by
  have h1 := (runInLoop_spec sampleLoopState 1 5).1 (by decide)
  have h2 := (runInLoop_spec sampleLoopState 2 5).2 (by decide)
  exact ⟨h1, h2.2.1, h2.2.2⟩

/-- C5 counterexample: a transfer of 0 bytes (a short write in `wakeup()`,
or a short read in `handleRead`) is not treated as fatal — the logging
action taken does not abort the process and both functions return
normally, contradicting the claim that the process aborts. -/
theorem wakeup_short_fatal_counterexample :
    ((EventLoop.wakeup 0).log).aborts = false
    ∧ (EventLoop.wakeup 0).log ≠ LogAction.logFatal
    ∧ (EventLoop.wakeup 0).returnsNormally = true
    ∧ ((EventLoop.handleRead 0).log).aborts = false
    ∧ (EventLoop.handleRead 0).log ≠ LogAction.logFatal
    ∧ (EventLoop.handleRead 0).returnsNormally = true := by
  decide

/-- C5 amended: a short write to the wake-up descriptor in `wakeup()`, or a
short read from it in the wake-up read handler, is reported with
`LOG_ERROR` — a diagnostic that does not abort — and the function returns
normally. -/
theorem wakeup_short_nonfatal (n : Int) (h : n ≠ 8) :
    (EventLoop.wakeup n).log = LogAction.logError
    ∧ ((EventLoop.wakeup n).log).aborts = false
    ∧ (EventLoop.wakeup n).returnsNormally = true
    ∧ (EventLoop.handleRead n).log = LogAction.logError
    ∧ ((EventLoop.handleRead n).log).aborts = false
    ∧ (EventLoop.handleRead n).returnsNormally = true := by
  simp [EventLoop.wakeup, EventLoop.handleRead, h, LogAction.aborts]

/-- C5 amended witness: a 3-byte transfer is short, logged as an error, and
non-fatal. -/
theorem wakeup_short_nonfatal_witness :
    (EventLoop.wakeup 3).log = LogAction.logError
    ∧ ((EventLoop.wakeup 3).log).aborts = false := by
  have h := wakeup_short_nonfatal 3 (by decide)
  exact ⟨h.1, h.2.1⟩

/-- C6: `wakeup()` asks `write` for exactly 8 bytes carrying the 64-bit
value 1; when the transferred count differs from 8 the condition is logged
as an error and the call still returns normally without aborting; the
wake-up read handler likewise asks `read` for 8 bytes and only logs on a
short transfer; a full 8-byte transfer logs nothing. -/
theorem wakeup_spec (n : Int) :
    (EventLoop.wakeup n).valueWritten = 1
    ∧ (EventLoop.wakeup n).bytesRequested = 8
    ∧ (EventLoop.handleRead n).bytesRequested = 8
    ∧ (n ≠ 8 →
        (EventLoop.wakeup n).log = LogAction.logError
        ∧ ((EventLoop.wakeup n).log).aborts = false
        ∧ (EventLoop.wakeup n).returnsNormally = true
        ∧ (EventLoop.handleRead n).log = LogAction.logError
        ∧ (EventLoop.handleRead n).returnsNormally = true)
    ∧ (n = 8 →
        (EventLoop.wakeup n).log = LogAction.noLog
        ∧ (EventLoop.handleRead n).log = LogAction.noLog) := by
  refine ⟨rfl, rfl, rfl, ?_, ?_⟩
  · intro h
    simp [EventLoop.wakeup, EventLoop.handleRead, h, LogAction.aborts]
  · intro h
    simp [EventLoop.wakeup, EventLoop.handleRead, h]

/-- C6 witness: at a short transfer of 5 bytes the write request is for 8
bytes of the value 1 and the condition is only logged as an error. -/
theorem wakeup_spec_witness :
    (EventLoop.wakeup 5).valueWritten = 1
    ∧ (EventLoop.wakeup 5).bytesRequested = 8
    ∧ (EventLoop.wakeup 5).log = LogAction.logError := by
  have h := wakeup_spec 5
  exact ⟨h.1, h.2.1, (h.2.2.2.1 (by decide)).1⟩

/-- C8: the source defines the poll-timeout constant twice, not once — both
textual definitions carry the value 10000 ms, but their count is 2, so the
claim that the constant is defined exactly once fails on this code (a C++
redefinition of `kPollTimeMs` in one translation unit). -/
theorem kPollTimeMs_double_definition :
    kPollTimeMsDefinitions = [10000, 10000]
    ∧ kPollTimeMsDefinitions.length = 2
    ∧ kPollTimeMsDefinitions.length ≠ 1
    ∧ kPollTimeMs = 10000 := by
  decide

/-- C10: `connected()` returns true exactly on `kConnected`, and returns
false on each of the three other states, `kDisconnecting` included. -/
theorem connected_iff (s : StateE) :
    (TcpConnection.connected s = true ↔ s = StateE.kConnected)
    ∧ TcpConnection.connected StateE.kDisconnected = false
    ∧ TcpConnection.connected StateE.kConnecting = false
    ∧ TcpConnection.connected StateE.kDisconnecting = false
    ∧ TcpConnection.connected StateE.kConnected = true := by
  refine ⟨?_, rfl, rfl, rfl, rfl⟩
  cases s <;> simp [TcpConnection.connected]

/-- C10 witness: a half-closing connection reports as not connected and a
connected one as connected. -/
theorem connected_iff_witness :
    TcpConnection.connected StateE.kDisconnecting = false
    ∧ TcpConnection.connected StateE.kConnected = true := by
  have h := connected_iff StateE.kConnected
  exact ⟨h.2.2.2.1, (h.1).2 rfl⟩

/-- When `quit_` is already set at a loop head, no further iteration runs:
the remaining trace is empty whatever the script holds. -/
theorem loopIters_of_quit (s : List IterInput) : loopIters true s = [] := by
  cases s <;> simp [loopIters]

/-- The last event of an iteration's trace is the deferred-task phase. -/
theorem iterTrace_getLast (it : IterInput) :
    (iterTrace it).getLast? = some LoopEvent.pendingPhase := by
  unfold iterTrace
  rw [← List.cons_append]
  exact List.getLast?_concat _

/-- Extracting the dispatched channels from a block of `handleEvent` events
recovers the channel list itself. -/
theorem channelOf_map (l : List Nat) :
    List.filterMap (LoopEvent.channelOf ∘ LoopEvent.handleEvent) l = l := by
  induction l with
  | nil => rfl
  | cons a t ih => simp [List.filterMap_cons, LoopEvent.channelOf, Function.comp, ih]

/-- Within one iteration the channels are dispatched exactly in the order
the poller returned them. -/
theorem iterTrace_channels (it : IterInput) :
    (iterTrace it).filterMap LoopEvent.channelOf = it.active := by
  simp [iterTrace, List.filterMap_cons, List.filterMap_append,
        LoopEvent.channelOf, channelOf_map]

/-- C4: under the precondition that `loop()` runs on the owning thread and
the loop is not already looping, a completed `loop()` call leaves
`looping_` cleared; its trace is that of the `while (!quit_)` loop, in
which a head check that observes `quit_` runs no further iteration (so an
iteration during which quit was requested is the last one), each
iteration's trace starts with the poll, ends with the deferred-task phase,
and dispatches `handleEvent` on the channels exactly in the poller's order;
`doPendingFunctors` takes the whole pending queue and leaves it empty. -/
theorem loop_spec (st : EventLoopState) (callerTid : Nat) (script : List IterInput)
    (r : LoopResult)
    (_hthread : callerTid = st.threadId) (_hnotLooping : st.looping = false)
    (hret : EventLoop.loop st script = some r) :
    r.looping = false
    ∧ r.trace = loopIters false script
    ∧ (∀ rest, loopIters true rest = [])
    ∧ (∀ it rest, it.quitDuring = true → loopIters false (it :: rest) = iterTrace it)
    ∧ (∀ it, (iterTrace it).head? = some (LoopEvent.poll kPollTimeMs))
    ∧ (∀ it, (iterTrace it).getLast? = some LoopEvent.pendingPhase)
    ∧ (∀ it, (iterTrace it).filterMap LoopEvent.channelOf = it.active)
    ∧ (∀ st', (EventLoop.doPendingFunctors st').1 = st'.pendingFunctors
        ∧ (EventLoop.doPendingFunctors st').2.pendingFunctors = []) := by
  have hr : r = { trace := loopIters false script, looping := false } := by
    unfold EventLoop.loop at hret
    split at hret
    · exact (Option.some_inj.mp hret).symm
    · exact Option.noConfusion hret
  subst hr
  refine ⟨rfl, rfl, loopIters_of_quit, ?_, fun it => rfl,
          iterTrace_getLast, iterTrace_channels, fun st' => ⟨rfl, rfl⟩⟩
  intro it rest h
  simp [loopIters, h, loopIters_of_quit]

/-- C4 witness: on a one-iteration script with channels 2 and 3 active and
quit requested during the body, `loop()` returns with `looping_` cleared
and the expected trace. -/
theorem loop_spec_witness :
    sampleLoopResult.looping = false
    ∧ sampleLoopResult.trace = loopIters false sampleScript := by
  have h := loop_spec sampleLoopState 1 sampleScript sampleLoopResult rfl rfl rfl
  exact ⟨h.1, h.2.1⟩

/-- C7 counterexample: `stoppedLoopState` is a stopped loop (`quit_` set,
`looping_` cleared after `loop()` returned), yet a subsequent `loop()` call
runs the reactor again — it returns a non-empty trace beginning with a
poll, because `loop()` resets `quit_` to false on entry. -/
theorem loop_restart_counterexample :
    stoppedLoopState.quit = true
    ∧ EventLoop.loop stoppedLoopState restartScript = some restartResult
    ∧ restartResult.trace ≠ [] := by
  decide

/-- C7 amended: a stopped EventLoop is restartable — `loop()` resets the
quit flag to false on entry, so any subsequent completed `loop()` call on a
stopped loop runs the reactor again, starting with at least one poll. -/
theorem loop_restartable (st : EventLoopState) (it : IterInput)
    (rest : List IterInput) (r : LoopResult)
    (_hstopped : st.quit = true)
    (hret : EventLoop.loop st (it :: rest) = some r) :
    r.trace.head? = some (LoopEvent.poll kPollTimeMs) ∧ r.trace ≠ [] := by
  have hr : r = { trace := loopIters false (it :: rest), looping := false } := by
    unfold EventLoop.loop at hret
    split at hret
    · exact (Option.some_inj.mp hret).symm
    · exact Option.noConfusion hret
  subst hr
  constructor
  · simp [loopIters, iterTrace]
  · simp [loopIters, iterTrace]

/-- C7 amended witness: restarting the concrete stopped loop yields a trace
that begins with a poll. -/
theorem loop_restartable_witness :
    restartResult.trace.head? = some (LoopEvent.poll kPollTimeMs)
    ∧ restartResult.trace ≠ [] :=
  loop_restartable stoppedLoopState ⟨[], true⟩ [] restartResult rfl rfl

/-- C9: in every schedule `Thread::start` admits, the worker's native id is
assigned into the wrapper before the user function runs, and also before
the caller's `sem_wait` returns — so `start()` returns only after the id
has been assigned and is observable. -/
theorem thread_start_spec (t : List ThreadEvent)
    (h : Thread.validStartTrace t) :
    precedes t ThreadEvent.assignTid ThreadEvent.runFunc
    ∧ precedes t ThreadEvent.assignTid ThreadEvent.semWaitReturn := by
  obtain ⟨-, h1, h2, h3⟩ := h
  exact ⟨Nat.lt_trans h1 h2, Nat.lt_trans h1 h3⟩

/-- C9 witness: the concrete schedule where the worker runs to completion
before the caller resumes is valid, and in it the id assignment precedes
both the user function and the caller's return from `sem_wait`. -/
theorem thread_start_spec_witness :
    precedes sampleStartTrace ThreadEvent.assignTid ThreadEvent.runFunc
    ∧ precedes sampleStartTrace ThreadEvent.assignTid ThreadEvent.semWaitReturn := by
  refine thread_start_spec sampleStartTrace ?_
  unfold Thread.validStartTrace
  refine ⟨List.Perm.refl _, ?_, ?_, ?_⟩ <;> decide
